import Mathlib

/-
  Verification of `qdrant_client/qdrant_fastembed.py` (QdrantFastembedMixin).

  The Python module is shallowly embedded below: the mixin's mutable model-name
  attributes become an explicit `FastembedState`, the process-wide provider
  caches become an explicit `ModelCache` threaded through `_get_or_init_*`,
  generators become functions returning lists, Python exceptions become
  explicit error values (`Except`), and the store / embedding-provider
  collaborators become function parameters.  Python strings are modelled by
  `String`, with `model_name.split("/")[-1].lower()` implemented on the
  character list so that it evaluates inside the kernel.
-/

namespace QdrantFastembed

/-- Split a character list on a separator character, keeping empty segments,
    mirroring Python `str.split(sep)` for a one-character separator. -/
def splitCharsOn (sep : Char) : List Char → List Char → List (List Char)
  | [], acc => [acc]
  | c :: cs, acc =>
    if c = sep then acc :: splitCharsOn sep cs []
    else splitCharsOn sep cs (acc ++ [c])

/-- Model of Python `model_name.split("/")[-1].lower()` used by the
    `get_*_vector_field_name` methods. -/
def lastSegmentLower (s : String) : String :=
  String.mk (((splitCharsOn (Char.ofNat 47) s.data []).getLastD s.data).map Char.toLower)

/-- The three optional model-name attributes of `QdrantFastembedMixin`
    (`_embedding_model_name`, `_image_embedding_model_name`,
    `_sparse_embedding_model_name`). -/
structure FastembedState where
  embedding_model_name : Option String
  image_embedding_model_name : Option String
  sparse_embedding_model_name : Option String
deriving DecidableEq

/-- `QdrantFastembedMixin.DEFAULT_EMBEDDING_MODEL`. -/
def DEFAULT_EMBEDDING_MODEL : String := "BAAI/bge-small-en"

/-- Python truthiness of an optional string, as used by
    `if self.sparse_embedding_model_name and not self._embedding_model_name`. -/
def truthyName : Option String → Bool
  | none => false
  | some s => s != ""

/-- `get_vector_field_name`: `fast-<model>` when a dense text model name is
    set, `None` otherwise. -/
def get_vector_field_name (st : FastembedState) : Option String :=
  match st.embedding_model_name with
  | some m => some ("fast-" ++ lastSegmentLower m)
  | none => none

/-- `get_image_vector_field_name`: `fast-image-<model>` when an image model
    name is set, `None` otherwise. -/
def get_image_vector_field_name (st : FastembedState) : Option String :=
  match st.image_embedding_model_name with
  | some m => some ("fast-image-" ++ lastSegmentLower m)
  | none => none

/-- `get_sparse_vector_field_name`: `fast-sparse-<model>` when a sparse model
    name is set, `None` otherwise. -/
def get_sparse_vector_field_name (st : FastembedState) : Option String :=
  match st.sparse_embedding_model_name with
  | some m => some ("fast-sparse-" ++ lastSegmentLower m)
  | none => none

/-- The `embedding_model_name` property: reads `_embedding_model_name`,
    filling in `DEFAULT_EMBEDDING_MODEL` when it is `None` (the property also
    writes the default back into the attribute; `defaultedState` below models
    that write). -/
def embedding_model_name (st : FastembedState) : String :=
  st.embedding_model_name.getD DEFAULT_EMBEDDING_MODEL

/-- The state after the `embedding_model_name` property has been read once:
    the dense model attribute is defaulted if it was `None`. -/
def defaultedState (st : FastembedState) : FastembedState :=
  { st with embedding_model_name := some (embedding_model_name st) }

/- ===== ModelRegistry: `_get_or_init_text_model` and the class-level cache ===== -/

/-- The process-wide provider cache (`cls.embedding_models` and friends).
    Provider instances are identified by the counter value at construction
    time, so that reference identity of cached instances is expressible:
    two resolutions return the very same instance iff they return the same
    identifier. `nextId` counts constructions performed so far. -/
structure ModelCache where
  entries : List (String × Nat)
  nextId : Nat
deriving DecidableEq

/-- Failures of `_get_or_init_*_model`: `ImportError` when fastembed is not
    installed, `ValueError` when the model name is unsupported. -/
inductive ResolveError where
  | importError
  | unsupportedModel
deriving DecidableEq

/-- `_get_or_init_text_model` (the image and sparse variants are verbatim
    copies over their own cache and supported-model table): return the cached
    instance when present; otherwise require fastembed to be installed and the
    model to be supported, then construct and cache a fresh instance.
    Returns the outcome together with the cache after the call. -/
def _get_or_init_text_model (installed : Bool) (supported : List String)
    (cache : ModelCache) (model_name : String) :
    Except ResolveError Nat × ModelCache :=
  match cache.entries.lookup model_name with
  | some inst => (Except.ok inst, cache)
  | none =>
    if !installed then (Except.error ResolveError.importError, cache)
    else if model_name ∈ supported then
      (Except.ok cache.nextId,
        ⟨cache.entries ++ [(model_name, cache.nextId)], cache.nextId + 1⟩)
    else (Except.error ResolveError.unsupportedModel, cache)

/- ===== Query orchestration (`query`) ===== -/

/-- Dense embedding vector.  The float components are opaque to this layer
    (never inspected, only routed), so they are modelled by integers. -/
abbrev Dense := List Int

/-- `types.SparseVector`: parallel index/value sequences. -/
structure Sparse where
  indices : List Nat
  values : List Int
deriving DecidableEq

/-- A vector attached to a named field of a point or search request. -/
inductive VecVal where
  | dense (v : Dense)
  | sparse (v : Sparse)
deriving DecidableEq

/-- A `query_text`/`query_image` argument: either a plain value, or a
    one-entry dict pinning the value to a named vector field (the source
    takes `next(iter(d.items()))`, i.e. the dict's first entry). -/
inductive QueryInput where
  | positional (value : String)
  | keyed (field : String) (value : String)
deriving DecidableEq

/-- The `ValueError`s raised on the query paths, plus the `ImportError`
    style failures of provider resolution. -/
inductive QueryError where
  | sparseWithoutDense
  | ambiguousQuery
  | imageModelNotSet
  | unsupportedModel
  | noQueriesProvided
deriving DecidableEq

/-- The store requests issued by a single `query` call: one named-vector
    search, or (hybrid) a dense and a sparse request dispatched as one
    `search_batch` call whose two responses are fused. -/
inductive QueryPlan where
  | single (name : Option String) (vec : Dense) (limit : Nat)
  | hybrid (denseName : Option String) (denseVec : Dense)
      (sparseName : Option String) (sparseVec : Sparse) (limit : Nat)
deriving DecidableEq

/-- Python `vector_name if vector_name else default`: an explicit name wins
    unless it is falsy (the empty string). -/
def orDefaultName (vn : Option String) (d : Option String) : Option String :=
  match vn with
  | some s => if s = "" then d else some s
  | none => d

/-- Unpack a `query_text`/`query_image` argument the way `query` does:
    a dict yields its first entry's key as the vector name. -/
def unpackQueryInput : QueryInput → Option String × String
  | QueryInput.positional v => (none, v)
  | QueryInput.keyed f v => (some f, v)

/-- `QdrantFastembedMixin.query`, as the plan of store requests it issues.
    `textSupported`/`imageSupported`/`sparseSupported` model the supported
    model tables consulted by `_get_or_init_*_model`; `embedText`,
    `embedImage` and `sparseEmbed` model the embedding providers.  Raised
    `ValueError`s become `Except.error`. -/
def query (st : FastembedState)
    (textSupported imageSupported sparseSupported : List String)
    (embedText embedImage : String → Dense) (sparseEmbed : String → Sparse)
    (query_text query_image : Option QueryInput) (limit : Nat) :
    Except QueryError QueryPlan :=
  if truthyName st.sparse_embedding_model_name && !truthyName st.embedding_model_name then
    Except.error QueryError.sparseWithoutDense
  else if query_text.isNone == query_image.isNone then
    Except.error QueryError.ambiguousQuery
  else
    match query_text with
    | some qt =>
      let p := unpackQueryInput qt
      let effModel := embedding_model_name st
      if effModel ∈ textSupported then
        let query_vector := embedText p.2
        let vector_name := orDefaultName p.1 (get_vector_field_name (defaultedState st))
        match st.sparse_embedding_model_name with
        | none => Except.ok (QueryPlan.single vector_name query_vector limit)
        | some sm =>
          if sm ∈ sparseSupported then
            Except.ok (QueryPlan.hybrid vector_name query_vector
              (get_sparse_vector_field_name st) (sparseEmbed p.2) limit)
          else Except.error QueryError.unsupportedModel
      else Except.error QueryError.unsupportedModel
    | none =>
      match query_image with
      | none => Except.error QueryError.ambiguousQuery
      | some qi =>
        let p := unpackQueryInput qi
        match st.image_embedding_model_name with
        | none => Except.error QueryError.imageModelNotSet
        | some im =>
          if im ∈ imageSupported then
            let query_vector := embedImage p.2
            let vector_name := orDefaultName p.1 (get_vector_field_name st)
            Except.ok (QueryPlan.single vector_name query_vector limit)
          else Except.error QueryError.unsupportedModel

/- ===== Batched queries (`query_batch`, `_query_text_batch`, `_query_image_batch`) ===== -/

/-- One `models.SearchRequest`: a named vector, plus the limit. -/
structure SearchRequest where
  name : Option String
  vec : VecVal
  limit : Nat
deriving DecidableEq

/-- A `types.ScoredPoint` returned by the store. -/
structure ScoredPoint where
  id : String
  score : Int
  payload : List (String × String)
  vector : List (String × VecVal)
deriving DecidableEq

/-- `fastembed_common.QueryResponse`. -/
structure QueryResponse where
  id : String
  embedding : Option VecVal
  image_embedding : Option VecVal
  sparse_embedding : Option VecVal
  metadata : List (String × String)
  document : String
  image_path : String
  score : Int
deriving DecidableEq

/-- The `_get_embedding` helper of `_scored_points_to_query_responses`:
    look the field name up in the point's vector dict. -/
def _get_embedding (scored_point : ScoredPoint) (field_name : Option String) :
    Option VecVal :=
  match field_name with
  | none => none
  | some f => scored_point.vector.lookup f

/-- `_scored_points_to_query_responses`: map store hits to the uniform
    response type, echoing the per-field vectors of the active models. -/
def _scored_points_to_query_responses (st : FastembedState)
    (scored_points : List ScoredPoint) : List QueryResponse :=
  scored_points.map fun sp =>
    { id := sp.id
      embedding := _get_embedding sp (get_vector_field_name st)
      image_embedding := _get_embedding sp (get_image_vector_field_name st)
      sparse_embedding := _get_embedding sp (get_sparse_vector_field_name st)
      metadata := sp.payload
      document := (sp.payload.lookup "document").getD ""
      image_path := (sp.payload.lookup "image_path").getD ""
      score := sp.score }

/-- A `query_texts`/`query_images` batch argument: a plain list, or a dict
    keyed by vector field names (order-preserving association list). -/
inductive BatchQueries where
  | plain (qs : List String)
  | byField (entries : List (String × String))
deriving DecidableEq

/-- The query values of a batch argument (`list(d.values())` for a dict). -/
def BatchQueries.queries : BatchQueries → List String
  | BatchQueries.plain qs => qs
  | BatchQueries.byField es => es.map Prod.snd

/-- `_query_text_batch`, as the one `search_batch` dispatch it performs (the
    issued request list) together with the returned list-of-lists.
    `searchBatch` models the store's `search_batch` (one response list per
    request, positionally) and `fuse` models `reciprocal_rank_fusion`.
    Note the source builds every dense request with
    `name=self.get_vector_field_name()` (line 944), ignoring the per-query
    `vector_name` zipped from a dict argument; that is modelled faithfully
    here. -/
def _query_text_batch (st : FastembedState)
    (textSupported sparseSupported : List String)
    (embedText : String → Dense) (sparseEmbed : String → Sparse)
    (searchBatch : List SearchRequest → List (List ScoredPoint))
    (fuse : List (List ScoredPoint) → Nat → List ScoredPoint)
    (query_texts : BatchQueries) (limit : Nat) :
    Except QueryError (List SearchRequest × List (List QueryResponse)) :=
  let effModel := embedding_model_name st
  if effModel ∈ textSupported then
    let st1 := defaultedState st
    let queries := query_texts.queries
    let query_vectors := queries.map embedText
    let requests := query_vectors.map
      (fun v => SearchRequest.mk (get_vector_field_name st1) (VecVal.dense v) limit)
    match st.sparse_embedding_model_name with
    | none =>
      let responses := searchBatch requests
      Except.ok (requests, responses.map (_scored_points_to_query_responses st1))
    | some sm =>
      if sm ∈ sparseSupported then
        let sparse_query_vectors := queries.map sparseEmbed
        let sparse_vector_name := get_sparse_vector_field_name st1
        let requests2 := requests ++ sparse_query_vectors.map
          (fun sv => SearchRequest.mk sparse_vector_name (VecVal.sparse sv) limit)
        let responses := searchBatch requests2
        let dense_responses := responses.take queries.length
        let sparse_responses := responses.drop queries.length
        let fused := (dense_responses.zip sparse_responses).map
          (fun pr => fuse [pr.1, pr.2] limit)
        Except.ok (requests2, fused.map (_scored_points_to_query_responses st1))
      else Except.error QueryError.unsupportedModel
  else Except.error QueryError.unsupportedModel

/-- `_query_image_batch`: one dense request per image.  Here the per-query
    `vector_name` is honoured (source line 1027); a plain list falls back to
    `get_vector_field_name()` — the dense *text* field name — for every
    request (source line 1020). -/
def _query_image_batch (st : FastembedState) (imageSupported : List String)
    (embedImage : String → Dense)
    (searchBatch : List SearchRequest → List (List ScoredPoint))
    (query_images : BatchQueries) (limit : Nat) :
    Except QueryError (List SearchRequest × List (List QueryResponse)) :=
  match st.image_embedding_model_name with
  | none => Except.error QueryError.imageModelNotSet
  | some im =>
    if im ∈ imageSupported then
      let p : List (Option String) × List String :=
        match query_images with
        | BatchQueries.byField es => (es.map (fun e => some e.1), es.map Prod.snd)
        | BatchQueries.plain qs => (qs.map (fun _ => get_vector_field_name st), qs)
      let query_vectors := p.2.map embedImage
      let requests := (p.1.zip query_vectors).map
        (fun pr => SearchRequest.mk pr.1 (VecVal.dense pr.2) limit)
      let responses := searchBatch requests
      Except.ok (requests, responses.map (_scored_points_to_query_responses st))
    else Except.error QueryError.unsupportedModel

/-- `query_batch`: validates the model configuration and the presence of at
    least one of `query_texts`/`query_images`, then concatenates the per-text
    result lists with the per-image result lists. -/
def query_batch (st : FastembedState)
    (textSupported imageSupported sparseSupported : List String)
    (embedText embedImage : String → Dense) (sparseEmbed : String → Sparse)
    (searchBatch : List SearchRequest → List (List ScoredPoint))
    (fuse : List (List ScoredPoint) → Nat → List ScoredPoint)
    (query_texts query_images : Option BatchQueries) (limit : Nat) :
    Except QueryError (List (List QueryResponse)) :=
  if truthyName st.sparse_embedding_model_name && !truthyName st.embedding_model_name then
    Except.error QueryError.sparseWithoutDense
  else if query_texts.isNone && query_images.isNone then
    Except.error QueryError.noQueriesProvided
  else do
    let textPart ← match query_texts with
      | none => pure []
      | some qt =>
        Except.map Prod.snd
          (_query_text_batch st textSupported sparseSupported embedText sparseEmbed
            searchBatch fuse qt limit)
    let imagePart ← match query_images with
      | none => pure []
      | some qi =>
        Except.map Prod.snd
          (_query_image_batch st imageSupported embedImage searchBatch qi limit)
    pure (textPart ++ imagePart)

/- ===== RecordStreamBuilder (`_points_iterator`) ===== -/

/-- A `models.PointStruct`. -/
structure PointStruct where
  id : String
  payload : List (String × String)
  vector : List (String × VecVal)
deriving DecidableEq

/-- Failures of `_points_iterator`: the `TypeError` from zipping over a
    `None` vectors argument, and the in-loop `assert`s, tagged with the
    record position at which the stream aborts. -/
inductive PIError where
  | noneNotIterable
  | assertDocNoVector (i : Nat)
  | assertNoVectorName (i : Nat)
  | assertImageNoVector (i : Nat)
  | assertNoImageVectorName (i : Nat)
  | assertNoSparseVectorName (i : Nat)
deriving DecidableEq

/-- The observable outcome of consuming the `_points_iterator` generator:
    the yielded points, the ids appended to `ids_accumulator` (the id of a
    failing position is appended before its assert fires), and the error that
    aborted the stream, if any. -/
structure PIResult where
  points : List PointStruct
  ids : List String
  error : Option PIError
deriving DecidableEq

/-- The seven optional sequence arguments of `_points_iterator`. -/
structure PIInputs where
  ids : Option (List String)
  metadata : Option (List (List (String × String)))
  documents : Option (List String)
  images : Option (List String)
  text_vectors : Option (List Dense)
  image_vectors : Option (List Dense)
  sparse_vectors : Option (List Sparse)
deriving DecidableEq

/-- Python dict assignment `m[k] = v` on an insertion-ordered dict. -/
def setKey (m : List (String × String)) (k v : String) : List (String × String) :=
  match m with
  | [] => [(k, v)]
  | (a, b) :: rest => if a = k then (a, v) :: rest else (a, b) :: setKey rest k v

/-- Python dict assignment for the point's vector mapping. -/
def setVecKey (m : List (String × VecVal)) (k : String) (v : VecVal) :
    List (String × VecVal) :=
  match m with
  | [] => [(k, v)]
  | (a, b) :: rest => if a = k then (a, v) :: rest else (a, b) :: setVecKey rest k v

/-- The lengths of the finite streams taking part in the seven-way `zip`,
    after `_points_iterator`'s sentinel substitution: an absent `ids`,
    `metadata`, `documents` or `images` becomes an infinite iterator, and an
    absent `documents` (resp. `images`) also replaces `text_vectors` and
    `sparse_vectors` (resp. `image_vectors`) by infinite `None` iterators,
    discarding them even if supplied. -/
def piFiniteLengths (inp : PIInputs) : List Nat :=
  (inp.ids.map List.length).toList ++ (inp.metadata.map List.length).toList ++
    (inp.documents.map List.length).toList ++
    (if inp.documents.isSome then
      (inp.text_vectors.map List.length).toList ++
        (inp.sparse_vectors.map List.length).toList
    else []) ++
    (inp.images.map List.length).toList ++
    (if inp.images.isSome then (inp.image_vectors.map List.length).toList else [])

/-- Number of tuples the zip yields: the minimum of the finite stream
    lengths; `none` when every stream is infinite (the generator would never
    terminate). -/
def piLen (inp : PIInputs) : Option Nat :=
  match piFiniteLengths inp with
  | [] => none
  | n :: ns => some (ns.foldl min n)

/-- One iteration of the `_points_iterator` loop at position `i`: the id
    appended to the accumulator, and either the yielded point or the first
    assert that fails, in source order (document invariant, dense name,
    image invariants, sparse name). -/
def piStep (vname iname sname : Option String) (gen : Nat → String) (inp : PIInputs)
    (i : Nat) : String × Except PIError PointStruct :=
  let idx := match inp.ids with
    | some l => l.getD i ""
    | none => gen i
  let meta := match inp.metadata with
    | some l => l.getD i []
    | none => []
  let doc : Option String := inp.documents.map (fun l => l.getD i "")
  let text_vector : Option Dense :=
    match inp.documents, inp.text_vectors with
    | some _, some l => some (l.getD i [])
    | _, _ => none
  let sparse_vector : Option Sparse :=
    match inp.documents, inp.sparse_vectors with
    | some _, some l => some (l.getD i ⟨[], []⟩)
    | _, _ => none
  let image_path : Option String := inp.images.map (fun l => l.getD i "")
  let image_vector : Option Dense :=
    match inp.images, inp.image_vectors with
    | some _, some l => some (l.getD i [])
    | _, _ => none
  let step : Except PIError PointStruct := do
    let meta1 ←
      match doc with
      | some d =>
        if text_vector.isNone && sparse_vector.isNone then
          Except.error (PIError.assertDocNoVector i)
        else pure (setKey meta "document" d)
      | none => pure meta
    let pv1 ←
      match text_vector with
      | some v =>
        match vname with
        | some n => pure (setVecKey [] n (VecVal.dense v))
        | none => Except.error (PIError.assertNoVectorName i)
      | none => pure []
    let mp2 ←
      match image_path with
      | some pth =>
        match image_vector with
        | none => Except.error (PIError.assertImageNoVector i)
        | some iv =>
          match iname with
          | none => Except.error (PIError.assertNoImageVectorName i)
          | some n =>
            pure (setKey meta1 "image_path" pth, setVecKey pv1 n (VecVal.dense iv))
      | none => pure (meta1, pv1)
    let pv3 ←
      match sparse_vector with
      | some sv =>
        match sname with
        | none => Except.error (PIError.assertNoSparseVectorName i)
        | some n => pure (setVecKey mp2.2 n (VecVal.sparse sv))
      | none => pure mp2.2
    pure (PointStruct.mk idx mp2.1 pv3)
  (idx, step)

/-- The `_points_iterator` loop, running `fuel` more iterations starting at
    position `i`; aborts at the first failing step, after recording its id. -/
def piLoop (vname iname sname : Option String) (gen : Nat → String) (inp : PIInputs) :
    Nat → Nat → PIResult
  | 0, _ => ⟨[], [], none⟩
  | fuel + 1, i =>
    let s := piStep vname iname sname gen inp i
    match s.2 with
    | Except.error e => ⟨[], [s.1], some e⟩
    | Except.ok pt =>
      let rest := piLoop vname iname sname gen inp fuel (i + 1)
      ⟨pt :: rest.points, s.1 :: rest.ids, rest.error⟩

/-- `_points_iterator`, fully consumed.  `gen` models `uuid.uuid4().hex` for
    generated ids.  A supplied `documents` (resp. `images`) with absent
    `text_vectors` (resp. `image_vectors`) makes the `zip` raise `TypeError`
    before yielding anything; if every stream is infinite the generator never
    terminates (`none`). -/
def _points_iterator (st : FastembedState) (gen : Nat → String) (inp : PIInputs) :
    Option PIResult :=
  if inp.documents.isSome && inp.text_vectors.isNone then
    some ⟨[], [], some PIError.noneNotIterable⟩
  else if inp.images.isSome && inp.image_vectors.isNone then
    some ⟨[], [], some PIError.noneNotIterable⟩
  else
    match piLen inp with
    | none => none
    | some n =>
      some (piLoop (get_vector_field_name st) (get_image_vector_field_name st)
        (get_sparse_vector_field_name st) gen inp n 0)

/- ===== SchemaValidator and ingestion (`_validate_collection_info`, `add`) ===== -/

/-- `models.Distance`. -/
inductive Distance where
  | cosine
  | dot
  | euclid
  | manhattan
deriving DecidableEq

/-- `models.VectorParams`, restricted to the fields the validator reads. -/
structure VectorParams where
  size : Nat
  distance : Distance
deriving DecidableEq

/-- `collection_info.config.params`: the declared dense vector fields and
    sparse vector field names of the target collection. -/
structure CollectionInfo where
  vectors : List (String × VectorParams)
  sparse_vectors : List String
deriving DecidableEq

/-- The `ValueError`s and `AssertionError`s of `_validate_collection_info`
    and `_get_*_model_params`. -/
inductive ValidationError where
  | unsupportedTextModel
  | unsupportedImageModel
  | incompatibleVectorFields
  | embeddingSizeMismatch (field : String)
  | distanceMismatch (field : String)
  | missingSparseField (field : String)
deriving DecidableEq

/-- `_get_text_model_params`: look the model up in
    `SUPPORTED_EMBEDDING_MODELS` (passed as `textTable`). -/
def _get_text_model_params (textTable : List (String × (Nat × Distance)))
    (model_name : String) : Except ValidationError (Nat × Distance) :=
  match textTable.lookup model_name with
  | some p => Except.ok p
  | none => Except.error ValidationError.unsupportedTextModel

/-- `_get_image_model_params`: look the model up in
    `SUPPORTED_IMAGE_EMBEDDING_MODELS` (passed as `imageTable`). -/
def _get_image_model_params (imageTable : List (String × (Nat × Distance)))
    (model_name : String) : Except ValidationError (Nat × Distance) :=
  match imageTable.lookup model_name with
  | some p => Except.ok p
  | none => Except.error ValidationError.unsupportedImageModel

/-- The image half of the `params_map` construction in
    `_validate_collection_info`: append the image binding, resolved against
    its supported-model table, to the text bindings. -/
def buildImagePart (st : FastembedState)
    (imageTable : List (String × (Nat × Distance)))
    (pm1 : List (String × (Nat × Distance))) :
    Except ValidationError (List (String × (Nat × Distance))) :=
  match st.image_embedding_model_name with
  | some im =>
    match _get_image_model_params imageTable im with
    | Except.ok p => Except.ok (pm1 ++ [("fast-image-" ++ lastSegmentLower im, p)])
    | Except.error e => Except.error e
  | none => Except.ok pm1

/-- The `params_map` built by `_validate_collection_info`: the dense text
    binding first, then the image binding, each resolved against its
    supported-model table. -/
def buildParamsMap (st : FastembedState)
    (textTable imageTable : List (String × (Nat × Distance))) :
    Except ValidationError (List (String × (Nat × Distance))) :=
  match st.embedding_model_name with
  | some dm =>
    match _get_text_model_params textTable dm with
    | Except.ok p =>
      buildImagePart st imageTable [("fast-" ++ lastSegmentLower dm, p)]
    | Except.error e => Except.error e
  | none => buildImagePart st imageTable []

/-- The per-field loop of `_validate_collection_info`: each binding's
    declared size, then distance, must match. -/
def checkParams (ci : CollectionInfo) :
    List (String × (Nat × Distance)) → Except ValidationError Unit
  | [] => Except.ok ()
  | (f, (sz, d)) :: rest =>
    match ci.vectors.lookup f with
    | none => Except.error ValidationError.incompatibleVectorFields
    | some vp =>
      if sz ≠ vp.size then Except.error (ValidationError.embeddingSizeMismatch f)
      else if d ≠ vp.distance then Except.error (ValidationError.distanceMismatch f)
      else checkParams ci rest

/-- The trailing sparse check of `_validate_collection_info`. -/
def checkSparse (st : FastembedState) (ci : CollectionInfo) :
    Except ValidationError Unit :=
  match get_sparse_vector_field_name st with
  | some f =>
    if f ∈ ci.sparse_vectors then Except.ok ()
    else Except.error (ValidationError.missingSparseField f)
  | none => Except.ok ()

/-- `_validate_collection_info`: build the binding map, assert all bound
    fields are declared, then check each binding's size and distance, then
    the sparse field's presence. -/
def _validate_collection_info (st : FastembedState)
    (textTable imageTable : List (String × (Nat × Distance)))
    (ci : CollectionInfo) : Except ValidationError Unit :=
  match buildParamsMap st textTable imageTable with
  | Except.error e => Except.error e
  | Except.ok pm =>
    if pm.all (fun e => (ci.vectors.lookup e.1).isSome) then
      match checkParams ci pm with
      | Except.ok _ => checkSparse st ci
      | Except.error e => Except.error e
    else Except.error ValidationError.incompatibleVectorFields

/-- The `embed_dense_text` flag of `add`: dense text embedding is on when no
    image and no sparse model is set, or when a dense model is set. -/
def embed_dense_text (st : FastembedState) : Bool :=
  (st.image_embedding_model_name.isNone && st.sparse_embedding_model_name.isNone) ||
    st.embedding_model_name.isSome

/-- The state as `add` leaves it after setting up the embedding streams: the
    eager `self.embedding_model_name` property access at the
    `_embed_documents` call site defaults the dense model name exactly when
    documents are supplied and dense text embedding is enabled. -/
def addState (st : FastembedState) (documents : Option (List String)) : FastembedState :=
  if documents.isSome && embed_dense_text st then defaultedState st else st

/-- `add`, modelled from embedding set-up through validation to the point
    stream that `upload_points` would consume: the embedding streams are
    derived from the supplied documents/images exactly when the source does;
    a validation failure aborts with `Except.error` before the point stream
    (the upsert payload) exists. -/
def add (st : FastembedState)
    (textTable imageTable : List (String × (Nat × Distance)))
    (embedText embedImage : String → Dense) (sparseEmbed : String → Sparse)
    (gen : Nat → String) (collection_info : CollectionInfo)
    (documents : Option (List String))
    (metadata : Option (List (List (String × String))))
    (ids : Option (List String)) (images : Option (List String)) :
    Except ValidationError (Option PIResult) :=
  let dense_text_embeddings : Option (List Dense) :=
    if documents.isSome && embed_dense_text st then documents.map (List.map embedText)
    else none
  let st1 := addState st documents
  let image_embeddings : Option (List Dense) :=
    if images.isSome && truthyName st.image_embedding_model_name then
      images.map (List.map embedImage)
    else none
  let sparse_embeddings : Option (List Sparse) :=
    if documents.isSome && st.sparse_embedding_model_name.isSome then
      documents.map (List.map sparseEmbed)
    else none
  match _validate_collection_info st1 textTable imageTable collection_info with
  | Except.error e => Except.error e
  | Except.ok _ =>
    Except.ok (_points_iterator st1 gen
      ⟨ids, metadata, documents, images, dense_text_embeddings, image_embeddings,
        sparse_embeddings⟩)

/- ===== Theorems ===== -/

/-- Helper: prefixing with a fixed string is injective. -/
theorem string_append_left_cancel (p a b : String) (h : p ++ a = p ++ b) : a = b := by
  have hd : (p ++ a).data = (p ++ b).data := congrArg String.data h
  rw [String.data_append, String.data_append] at hd
  exact String.ext (List.append_cancel_left hd)

/-- Claim C4, counterexample: the distinct model names `a/m` and `b/m`,
    selected in the dense slot, derive the identical field name `fast-m`, so
    distinct model names in the same slot can collide. -/
theorem c4_distinct_models_collide :
    ("a/m" : String) ≠ "b/m" ∧
      get_vector_field_name ⟨some "a/m", none, none⟩ =
        get_vector_field_name ⟨some "b/m", none, none⟩ := by
  decide

/-- Claim C4 (amended): for every slot the field-name function is pure and
    deterministic — states agreeing on the slot's model name yield the same
    field name — and two model names selected in the same slot derive distinct
    field names whenever their lower-cased trailing path segments differ
    (model names sharing the same lower-cased trailing segment collide). -/
theorem c4_field_names_deterministic_and_segment_injective :
    (∀ s t : FastembedState,
      s.embedding_model_name = t.embedding_model_name →
        get_vector_field_name s = get_vector_field_name t) ∧
    (∀ s t : FastembedState,
      s.image_embedding_model_name = t.image_embedding_model_name →
        get_image_vector_field_name s = get_image_vector_field_name t) ∧
    (∀ s t : FastembedState,
      s.sparse_embedding_model_name = t.sparse_embedding_model_name →
        get_sparse_vector_field_name s = get_sparse_vector_field_name t) ∧
    (∀ m₁ m₂ : String, lastSegmentLower m₁ ≠ lastSegmentLower m₂ →
      get_vector_field_name ⟨some m₁, none, none⟩ ≠
        get_vector_field_name ⟨some m₂, none, none⟩) ∧
    (∀ m₁ m₂ : String, lastSegmentLower m₁ ≠ lastSegmentLower m₂ →
      get_image_vector_field_name ⟨none, some m₁, none⟩ ≠
        get_image_vector_field_name ⟨none, some m₂, none⟩) ∧
    (∀ m₁ m₂ : String, lastSegmentLower m₁ ≠ lastSegmentLower m₂ →
      get_sparse_vector_field_name ⟨none, none, some m₁⟩ ≠
        get_sparse_vector_field_name ⟨none, none, some m₂⟩) := by
  refine ⟨?_, ?_, ?_, ?_, ?_, ?_⟩
  · intro s t h; simp [get_vector_field_name, h]
  · intro s t h; simp [get_image_vector_field_name, h]
  · intro s t h; simp [get_sparse_vector_field_name, h]
  · intro m₁ m₂ h hc
    simp only [get_vector_field_name, Option.some.injEq] at hc
    exact h (string_append_left_cancel _ _ _ hc)
  · intro m₁ m₂ h hc
    simp only [get_image_vector_field_name, Option.some.injEq] at hc
    exact h (string_append_left_cancel _ _ _ hc)
  · intro m₁ m₂ h hc
    simp only [get_sparse_vector_field_name, Option.some.injEq] at hc
    exact h (string_append_left_cancel _ _ _ hc)

/-- Witness for C4's amended theorem at two concrete model names whose
    trailing segments differ. -/
theorem c4_field_names_witness :
    get_vector_field_name ⟨some "BAAI/bge-small-en", none, none⟩ ≠
      get_vector_field_name ⟨some "intfloat/multilingual-e5-large", none, none⟩ :=
  c4_field_names_deterministic_and_segment_injective.2.2.2.1
    "BAAI/bge-small-en" "intfloat/multilingual-e5-large" (by decide)

/-- Helper: appending a binding for a key absent from an association list
    makes lookup of that key find the appended binding. -/
theorem lookup_append_of_none {β : Type} (l : List (String × β)) (k : String) (v : β)
    (h : l.lookup k = none) : (l ++ [(k, v)]).lookup k = some v := by
  induction l with
  | nil => simp [List.lookup]
  | cons hd tl ih =>
    obtain ⟨a, b⟩ := hd
    simp only [List.lookup, List.cons_append] at h ⊢
    cases hka : (k == a) with
    | true => simp [hka] at h
    | false => simp only [hka] at h ⊢; exact ih h

/-- Claim C8: resolving a model a second time returns the identical cached
    provider instance with the cache unchanged (no reconstruction: `nextId`
    is not advanced), and any failed resolve — unsupported model or missing
    backend — leaves the cache exactly as it was (no eviction). -/
theorem c8_resolve_memoized_and_failure_preserves_cache :
    (∀ (installed : Bool) (supported : List String) (c : ModelCache)
        (name : String) (inst : Nat) (c₁ : ModelCache),
      _get_or_init_text_model installed supported c name = (Except.ok inst, c₁) →
        _get_or_init_text_model installed supported c₁ name = (Except.ok inst, c₁)) ∧
    (∀ (installed : Bool) (supported : List String) (c : ModelCache)
        (name : String) (e : ResolveError) (c₂ : ModelCache),
      _get_or_init_text_model installed supported c name = (Except.error e, c₂) →
        c₂ = c) := by
  constructor
  · intro installed supported c name inst c₁ h
    unfold _get_or_init_text_model at h ⊢
    cases hl : c.entries.lookup name with
    | some i =>
      simp only [hl, Prod.mk.injEq] at h
      obtain ⟨hi, hc⟩ := h
      obtain rfl : i = inst := Except.ok.inj hi
      subst hc
      simp [hl]
    | none =>
      simp only [hl] at h
      cases installed with
      | false => simp at h
      | true =>
        by_cases hs : name ∈ supported
        · simp only [hs, if_true, Bool.not_true, Bool.false_eq_true, if_false,
            Prod.mk.injEq] at h
          obtain ⟨hi, hc⟩ := h
          obtain rfl : c.nextId = inst := Except.ok.inj hi
          subst hc
          have hfind : (c.entries ++ [(name, c.nextId)]).lookup name = some c.nextId :=
            lookup_append_of_none c.entries name c.nextId hl
          simp [hfind]
        · simp [hs] at h
  · intro installed supported c name e c₂ h
    unfold _get_or_init_text_model at h
    cases hl : c.entries.lookup name with
    | some i => simp [hl] at h
    | none =>
      simp only [hl] at h
      cases installed with
      | false =>
        simp only [Bool.not_false, if_true, Prod.mk.injEq] at h
        exact h.2.symm
      | true =>
        by_cases hs : name ∈ supported
        · simp [hs] at h
        · simp [hs, Prod.mk.injEq] at h
          exact h.2.symm

/-- Witness for C8 at a concrete cache: resolving `m` a second time returns
    instance `0` with the cache untouched, and a failed resolve of the
    unsupported name `bad` leaves the cache entry for `m` in place. -/
theorem c8_resolve_witness :
    _get_or_init_text_model true ["m"] ⟨[("m", 0)], 1⟩ "m" =
        (Except.ok 0, (⟨[("m", 0)], 1⟩ : ModelCache)) ∧
      (⟨[("m", 0)], 1⟩ : ModelCache) = ⟨[("m", 0)], 1⟩ :=
  ⟨c8_resolve_memoized_and_failure_preserves_cache.1 true ["m"] ⟨[], 0⟩ "m" 0
      ⟨[("m", 0)], 1⟩ rfl,
    c8_resolve_memoized_and_failure_preserves_cache.2 true ["m"] ⟨[("m", 0)], 1⟩ "bad"
      ResolveError.unsupportedModel ⟨[("m", 0)], 1⟩ rfl⟩

/-- Claim C2, counterexample: with a sparse model active and no dense model
    set, a query supplying only `query_image` (no `query_text`) still raises
    the sparse-without-dense `ValueError`, because the check runs before the
    query arguments are inspected. -/
theorem c2_image_only_query_also_raises_sparse_without_dense :
    query ⟨none, some "Qdrant/clip-ViT-B-32-vision", some "prithivida/Splade_PP_en_v1"⟩
        [] ["Qdrant/clip-ViT-B-32-vision"] ["prithivida/Splade_PP_en_v1"]
        (fun _ => []) (fun _ => [1]) (fun _ => ⟨[], []⟩)
        none (some (QueryInput.positional "cat.png")) 10 =
      Except.error QueryError.sparseWithoutDense := by
  rfl

/-- Claim C2 (amended): the sparse-without-dense failure is raised whenever a
    sparse model is active (truthy) and no dense model is set, regardless of
    whether `query_text` or `query_image` is supplied — the check precedes any
    inspection of the query arguments. -/
theorem c2_sparse_without_dense_is_unconditional
    (st : FastembedState) (textS imageS sparseS : List String)
    (et ei : String → Dense) (se : String → Sparse)
    (qt qi : Option QueryInput) (limit : Nat)
    (hs : truthyName st.sparse_embedding_model_name = true)
    (hd : truthyName st.embedding_model_name = false) :
    query st textS imageS sparseS et ei se qt qi limit =
      Except.error QueryError.sparseWithoutDense := by
  unfold query
  rw [hs, hd]
  rfl

/-- Witness for C2's amended theorem: concrete state with only a sparse model
    set, queried with a text query. -/
theorem c2_sparse_without_dense_witness :
    query ⟨none, none, some "prithivida/Splade_PP_en_v1"⟩ [] [] []
        (fun _ => []) (fun _ => []) (fun _ => ⟨[], []⟩)
        (some (QueryInput.positional "hello")) none 5 =
      Except.error QueryError.sparseWithoutDense :=
  c2_sparse_without_dense_is_unconditional
    ⟨none, none, some "prithivida/Splade_PP_en_v1"⟩ [] [] []
    (fun _ => []) (fun _ => []) (fun _ => ⟨[], []⟩)
    (some (QueryInput.positional "hello")) none 5 rfl rfl

/-- Claim C9: a single image query supplied positionally (not as a dict) with
    an image model active is issued against the dense text model's derived
    field name `fast-<text model>` — `get_vector_field_name`, not
    `get_image_vector_field_name` (`fast-image-<image model>`). -/
theorem c9_positional_image_query_searches_dense_text_field
    (st : FastembedState) (textS imageS sparseS : List String)
    (et ei : String → Dense) (se : String → Sparse)
    (dm im p : String) (limit : Nat)
    (hdm : st.embedding_model_name = some dm)
    (him : st.image_embedding_model_name = some im)
    (hguard : (truthyName st.sparse_embedding_model_name &&
      !truthyName st.embedding_model_name) = false)
    (hsup : im ∈ imageS) :
    query st textS imageS sparseS et ei se none (some (QueryInput.positional p)) limit =
        Except.ok (QueryPlan.single (get_vector_field_name st) (ei p) limit) ∧
      get_vector_field_name st = some ("fast-" ++ lastSegmentLower dm) ∧
      get_image_vector_field_name st = some ("fast-image-" ++ lastSegmentLower im) := by
  refine ⟨?_, ?_, ?_⟩
  · unfold query
    rw [hguard]
    simp [him, hsup, unpackQueryInput, orDefaultName]
  · simp [get_vector_field_name, hdm]
  · simp [get_image_vector_field_name, him]

/-- Witness for C9: with dense model `BAAI/bge-small-en` and image model
    `Qdrant/clip-ViT-B-32-vision`, a positional image query searches
    `fast-bge-small-en`, not `fast-image-clip-vit-b-32-vision`. -/
theorem c9_positional_image_query_witness :
    query ⟨some "BAAI/bge-small-en", some "Qdrant/clip-ViT-B-32-vision", none⟩
        ["BAAI/bge-small-en"] ["Qdrant/clip-ViT-B-32-vision"] []
        (fun _ => []) (fun _ => [2]) (fun _ => ⟨[], []⟩)
        none (some (QueryInput.positional "cat.png")) 10 =
        Except.ok (QueryPlan.single
          (get_vector_field_name
            ⟨some "BAAI/bge-small-en", some "Qdrant/clip-ViT-B-32-vision", none⟩)
          [2] 10) ∧
      get_vector_field_name
          ⟨some "BAAI/bge-small-en", some "Qdrant/clip-ViT-B-32-vision", none⟩ =
        some "fast-bge-small-en" ∧
      get_image_vector_field_name
          ⟨some "BAAI/bge-small-en", some "Qdrant/clip-ViT-B-32-vision", none⟩ =
        some "fast-image-clip-vit-b-32-vision" := by
  have h := c9_positional_image_query_searches_dense_text_field
    ⟨some "BAAI/bge-small-en", some "Qdrant/clip-ViT-B-32-vision", none⟩
    ["BAAI/bge-small-en"] ["Qdrant/clip-ViT-B-32-vision"] []
    (fun _ => []) (fun _ => [2]) (fun _ => ⟨[], []⟩)
    "BAAI/bge-small-en" "Qdrant/clip-ViT-B-32-vision" "cat.png" 10
    rfl rfl rfl (by simp)
  refine ⟨h.1, ?_, ?_⟩
  · rw [h.2.1]; rfl
  · rw [h.2.2]; rfl

/-- The dense search requests `_query_text_batch` builds: one per query, all
    named by the resolver default (see the note on `_query_text_batch`). -/
def denseTextRequests (st : FastembedState) (et : String → Dense)
    (qs : List String) (limit : Nat) : List SearchRequest :=
  qs.map (fun q => SearchRequest.mk (get_vector_field_name st) (VecVal.dense (et q)) limit)

/-- The sparse search requests `_query_text_batch` appends on hybrid: one per
    query, named by the sparse resolver default. -/
def sparseTextRequests (st : FastembedState) (se : String → Sparse)
    (qs : List String) (limit : Nat) : List SearchRequest :=
  qs.map (fun q =>
    SearchRequest.mk (get_sparse_vector_field_name st) (VecVal.sparse (se q)) limit)

/-- Helper: reading the `embedding_model_name` property does not change the
    state when a dense model name is already set. -/
theorem defaultedState_of_some (st : FastembedState) (m : String)
    (h : st.embedding_model_name = some m) : defaultedState st = st := by
  cases st
  simp_all [defaultedState, embedding_model_name]

/-- Helper: mapping a pairwise function over `zip (take N R) (drop N R)`
    reads positions `i` and `N + i` of `R`. -/
theorem zip_take_drop_map_getD {α β : Type} (f : α → α → β) (d : α) (R : List α) (N : Nat)
    (hR : R.length = 2 * N) :
    ((R.take N).zip (R.drop N)).map (fun pr => f pr.1 pr.2) =
      (List.range N).map (fun i => f (R.getD i d) (R.getD (N + i) d)) := by
  apply List.ext_getElem
  · simp [hR]; omega
  · intro i h1 h2
    have hiN : i < N := by simpa using h2
    have hiR : i < R.length := by omega
    have hNiR : N + i < R.length := by omega
    simp only [List.getElem_map, List.getElem_range, List.getElem_zip]
    rw [List.getD_eq_getElem R d hiR, List.getD_eq_getElem R d hNiR]
    congr 1
    · exact List.getElem_take ..
    · rw [List.getElem_drop]

/-- Claim C1 (code bug), failing input: a batched text query supplied as the
    field-keyed mapping `{"custom-field": "hello"}` with dense model
    `BAAI/bge-small-en` active issues its dense search request against the
    default derived field name `fast-bge-small-en`, not against the caller's
    explicit field `custom-field` (the per-query `vector_name` zipped at
    source line 941 is ignored at line 944). -/
theorem c1_batched_dict_query_ignores_explicit_field :
    _query_text_batch ⟨some "BAAI/bge-small-en", none, none⟩ ["BAAI/bge-small-en"] []
        (fun _ => [7]) (fun _ => ⟨[], []⟩)
        (fun reqs => reqs.map (fun _ => [])) (fun _ _ => [])
        (BatchQueries.byField [("custom-field", "hello")]) 10 =
      Except.ok
        ([SearchRequest.mk (some "fast-bge-small-en") (VecVal.dense [7]) 10], [[]]) ∧
    ("fast-bge-small-en" : String) ≠ "custom-field" :=
  ⟨rfl, by decide⟩

/-- Claim C6: a batched hybrid text query of N queries (dense and sparse
    models both active) issues all 2N requests in one `search_batch` dispatch
    — the N dense requests first, then the N sparse requests — and the
    response list is partitioned by position: the result preserves query
    order, its i-th entry being the fusion of response i (dense) with
    response N + i (sparse). -/
theorem c6_hybrid_batch_partitioned_positionally
    (st : FastembedState) (textS sparseS : List String)
    (et : String → Dense) (se : String → Sparse)
    (searchBatch : List SearchRequest → List (List ScoredPoint))
    (fuse : List (List ScoredPoint) → Nat → List ScoredPoint)
    (query_texts : BatchQueries) (limit : Nat) (dm sm : String)
    (hdm : st.embedding_model_name = some dm)
    (hsm : st.sparse_embedding_model_name = some sm)
    (htS : dm ∈ textS) (hsS : sm ∈ sparseS)
    (hlen : ∀ reqs, (searchBatch reqs).length = reqs.length) :
    _query_text_batch st textS sparseS et se searchBatch fuse query_texts limit =
      Except.ok
        (denseTextRequests st et query_texts.queries limit ++
            sparseTextRequests st se query_texts.queries limit,
          (List.range query_texts.queries.length).map (fun i =>
            _scored_points_to_query_responses st
              (fuse
                [(searchBatch (denseTextRequests st et query_texts.queries limit ++
                    sparseTextRequests st se query_texts.queries limit)).getD i [],
                  (searchBatch (denseTextRequests st et query_texts.queries limit ++
                    sparseTextRequests st se query_texts.queries limit)).getD
                    (query_texts.queries.length + i) []]
                limit))) := by
  have hst1 : defaultedState st = st := defaultedState_of_some st dm hdm
  have heff : embedding_model_name st = dm := by
    simp [embedding_model_name, hdm]
  unfold _query_text_batch
  simp only [heff, htS, if_true, hst1, hsm, hsS]
  have hreq :
      (query_texts.queries.map et).map
          (fun v => SearchRequest.mk (get_vector_field_name st) (VecVal.dense v) limit) =
        denseTextRequests st et query_texts.queries limit := by
    rw [denseTextRequests, List.map_map]; rfl
  have hsreq :
      (query_texts.queries.map se).map
          (fun sv =>
            SearchRequest.mk (get_sparse_vector_field_name st) (VecVal.sparse sv) limit) =
        sparseTextRequests st se query_texts.queries limit := by
    rw [sparseTextRequests, List.map_map]; rfl
  simp only [hreq, hsreq]
  have hRlen :
      (searchBatch (denseTextRequests st et query_texts.queries limit ++
        sparseTextRequests st se query_texts.queries limit)).length =
        2 * query_texts.queries.length := by
    rw [hlen, List.length_append, denseTextRequests, sparseTextRequests,
      List.length_map, List.length_map]
    omega
  rw [zip_take_drop_map_getD (fun a b => fuse [a, b] limit) []
    (searchBatch (denseTextRequests st et query_texts.queries limit ++
      sparseTextRequests st se query_texts.queries limit))
    query_texts.queries.length hRlen]
  rw [List.map_map]
  rfl

/-- Witness for C6 at two concrete queries: both the dense and the sparse
    request pair are dispatched in one batch and fused positionally. -/
theorem c6_hybrid_batch_witness :
    _query_text_batch ⟨some "BAAI/bge-small-en", none, some "prithivida/Splade_PP_en_v1"⟩
        ["BAAI/bge-small-en"] ["prithivida/Splade_PP_en_v1"]
        (fun _ => [1]) (fun _ => ⟨[0], [1]⟩)
        (fun reqs => reqs.map (fun _ => [])) (fun _ _ => [])
        (BatchQueries.plain ["a", "b"]) 3 =
      Except.ok
        (denseTextRequests ⟨some "BAAI/bge-small-en", none, some "prithivida/Splade_PP_en_v1"⟩
            (fun _ => [1]) (BatchQueries.plain ["a", "b"]).queries 3 ++
            sparseTextRequests ⟨some "BAAI/bge-small-en", none, some "prithivida/Splade_PP_en_v1"⟩
              (fun _ => ⟨[0], [1]⟩) (BatchQueries.plain ["a", "b"]).queries 3,
          (List.range (BatchQueries.plain ["a", "b"]).queries.length).map (fun i =>
            _scored_points_to_query_responses
              ⟨some "BAAI/bge-small-en", none, some "prithivida/Splade_PP_en_v1"⟩
              ((fun _ _ => ([] : List ScoredPoint))
                [((fun (reqs : List SearchRequest) => reqs.map (fun _ => ([] : List ScoredPoint)))
                    (denseTextRequests
                      ⟨some "BAAI/bge-small-en", none, some "prithivida/Splade_PP_en_v1"⟩
                      (fun _ => [1]) (BatchQueries.plain ["a", "b"]).queries 3 ++
                      sparseTextRequests
                        ⟨some "BAAI/bge-small-en", none, some "prithivida/Splade_PP_en_v1"⟩
                        (fun _ => ⟨[0], [1]⟩) (BatchQueries.plain ["a", "b"]).queries 3)).getD i [],
                  ((fun (reqs : List SearchRequest) => reqs.map (fun _ => ([] : List ScoredPoint)))
                    (denseTextRequests
                      ⟨some "BAAI/bge-small-en", none, some "prithivida/Splade_PP_en_v1"⟩
                      (fun _ => [1]) (BatchQueries.plain ["a", "b"]).queries 3 ++
                      sparseTextRequests
                        ⟨some "BAAI/bge-small-en", none, some "prithivida/Splade_PP_en_v1"⟩
                        (fun _ => ⟨[0], [1]⟩) (BatchQueries.plain ["a", "b"]).queries 3)).getD
                    ((BatchQueries.plain ["a", "b"]).queries.length + i) []]
                3))) :=
  c6_hybrid_batch_partitioned_positionally
    ⟨some "BAAI/bge-small-en", none, some "prithivida/Splade_PP_en_v1"⟩
    ["BAAI/bge-small-en"] ["prithivida/Splade_PP_en_v1"]
    (fun _ => [1]) (fun _ => ⟨[0], [1]⟩)
    (fun reqs => reqs.map (fun _ => [])) (fun _ _ => [])
    (BatchQueries.plain ["a", "b"]) 3 "BAAI/bge-small-en" "prithivida/Splade_PP_en_v1"
    rfl rfl (by decide) (by decide) (fun reqs => by simp)

/-- Claim C10, counterexample: `query_batch` can raise with `query_texts`
    supplied (not both `None`): with a sparse model active and no dense model
    set, the sparse-without-dense error fires first, so it is not the case
    that an error is raised only when both inputs are `None`. -/
theorem c10_batch_errors_with_texts_supplied :
    query_batch ⟨none, none, some "prithivida/Splade_PP_en_v1"⟩ [] [] []
        (fun _ => []) (fun _ => []) (fun _ => ⟨[], []⟩)
        (fun reqs => reqs.map (fun _ => [])) (fun _ _ => [])
        (some (BatchQueries.plain ["a"])) none 10 =
      Except.error QueryError.sparseWithoutDense ∧
    some (BatchQueries.plain ["a"]) ≠ (none : Option BatchQueries) :=
  ⟨rfl, by decide⟩

/-- Claim C10 (amended): `query_batch`, unlike single `query`, accepts
    `query_texts` and `query_images` together; given an otherwise valid model
    configuration the missing-input error is raised exactly when both are
    `None`, and when both are supplied (and both sub-queries succeed) the
    returned list is all per-text result lists followed by all per-image
    result lists. -/
theorem c10_batch_accepts_both_texts_and_images :
    (∀ (st : FastembedState) (textS imageS sparseS : List String)
        (et ei : String → Dense) (se : String → Sparse)
        (sb : List SearchRequest → List (List ScoredPoint))
        (fuse : List (List ScoredPoint) → Nat → List ScoredPoint) (limit : Nat),
      (truthyName st.sparse_embedding_model_name &&
          !truthyName st.embedding_model_name) = false →
        query_batch st textS imageS sparseS et ei se sb fuse none none limit =
          Except.error QueryError.noQueriesProvided) ∧
    (∀ (st : FastembedState) (textS imageS sparseS : List String)
        (et ei : String → Dense) (se : String → Sparse)
        (sb : List SearchRequest → List (List ScoredPoint))
        (fuse : List (List ScoredPoint) → Nat → List ScoredPoint)
        (qt qi : BatchQueries) (limit : Nat)
        (tr ir : List SearchRequest) (touts iouts : List (List QueryResponse)),
      (truthyName st.sparse_embedding_model_name &&
          !truthyName st.embedding_model_name) = false →
        _query_text_batch st textS sparseS et se sb fuse qt limit =
          Except.ok (tr, touts) →
        _query_image_batch st imageS ei sb qi limit = Except.ok (ir, iouts) →
        query_batch st textS imageS sparseS et ei se sb fuse
            (some qt) (some qi) limit =
          Except.ok (touts ++ iouts)) := by
  constructor
  · intro st textS imageS sparseS et ei se sb fuse limit hguard
    unfold query_batch
    rw [hguard]
    rfl
  · intro st textS imageS sparseS et ei se sb fuse qt qi limit tr ir touts iouts
      hguard ht hi
    unfold query_batch
    rw [hguard]
    simp only [ht, hi, Except.map, Option.isNone_some, Bool.and_false, Bool.false_eq_true,
      if_false]
    rfl

/-- Witness for C10's amended theorem: a concrete state where both parts are
    exercised — both `None` yields the missing-input error, and a combined
    text-and-image call returns the text result lists first. -/
theorem c10_batch_witness :
    query_batch ⟨some "BAAI/bge-small-en", some "Qdrant/clip-ViT-B-32-vision", none⟩
        ["BAAI/bge-small-en"] ["Qdrant/clip-ViT-B-32-vision"] []
        (fun _ => [1]) (fun _ => [2]) (fun _ => ⟨[], []⟩)
        (fun reqs => reqs.map (fun _ => [])) (fun _ _ => [])
        none none 10 =
      Except.error QueryError.noQueriesProvided ∧
    query_batch ⟨some "BAAI/bge-small-en", some "Qdrant/clip-ViT-B-32-vision", none⟩
        ["BAAI/bge-small-en"] ["Qdrant/clip-ViT-B-32-vision"] []
        (fun _ => [1]) (fun _ => [2]) (fun _ => ⟨[], []⟩)
        (fun reqs => reqs.map (fun _ => [])) (fun _ _ => [])
        (some (BatchQueries.plain ["t1"])) (some (BatchQueries.plain ["i1", "i2"])) 10 =
      Except.ok ([[]] ++ [[], []]) :=
  ⟨c10_batch_accepts_both_texts_and_images.1
      ⟨some "BAAI/bge-small-en", some "Qdrant/clip-ViT-B-32-vision", none⟩
      ["BAAI/bge-small-en"] ["Qdrant/clip-ViT-B-32-vision"] []
      (fun _ => [1]) (fun _ => [2]) (fun _ => ⟨[], []⟩)
      (fun reqs => reqs.map (fun _ => [])) (fun _ _ => []) 10 rfl,
    c10_batch_accepts_both_texts_and_images.2
      ⟨some "BAAI/bge-small-en", some "Qdrant/clip-ViT-B-32-vision", none⟩
      ["BAAI/bge-small-en"] ["Qdrant/clip-ViT-B-32-vision"] []
      (fun _ => [1]) (fun _ => [2]) (fun _ => ⟨[], []⟩)
      (fun reqs => reqs.map (fun _ => [])) (fun _ _ => [])
      (BatchQueries.plain ["t1"]) (BatchQueries.plain ["i1", "i2"]) 10
      [SearchRequest.mk (some "fast-bge-small-en") (VecVal.dense [1]) 10]
      [SearchRequest.mk (some "fast-bge-small-en") (VecVal.dense [2]) 10,
        SearchRequest.mk (some "fast-bge-small-en") (VecVal.dense [2]) 10]
      [[]] [[], []] rfl rfl rfl⟩

/-- Helper: a left fold by `min` is bounded by its initial value. -/
theorem foldl_min_le_init (n : Nat) (ns : List Nat) : ns.foldl min n ≤ n := by
  induction ns generalizing n with
  | nil => simp
  | cons m ms ih => exact le_trans (ih (min n m)) (min_le_left n m)

/-- Helper: a left fold by `min` is bounded by every list member. -/
theorem foldl_min_le_mem (n x : Nat) (ns : List Nat) (hx : x ∈ ns) :
    ns.foldl min n ≤ x := by
  induction ns generalizing n with
  | nil => cases hx
  | cons m ms ih =>
    rcases List.mem_cons.mp hx with rfl | hx2
    · exact le_trans (foldl_min_le_init (min n x) ms) (min_le_right n x)
    · exact ih (min n m) hx2

/-- Helper: the zip bound exists whenever some stream is finite. -/
theorem piLen_some_of_ne_nil (inp : PIInputs) (h : piFiniteLengths inp ≠ []) :
    ∃ n, piLen inp = some n := by
  unfold piLen
  cases hfl : piFiniteLengths inp with
  | nil => exact absurd hfl h
  | cons m ms => exact ⟨ms.foldl min m, rfl⟩

/-- Helper: the zip bound is at most every finite stream length. -/
theorem piLen_le_mem (inp : PIInputs) (n x : Nat) (hn : piLen inp = some n)
    (hx : x ∈ piFiniteLengths inp) : n ≤ x := by
  unfold piLen at hn
  cases hfl : piFiniteLengths inp with
  | nil => rw [hfl] at hx; cases hx
  | cons m ms =>
    rw [hfl] at hn hx
    obtain rfl : ms.foldl min m = n := Option.some.inj hn
    rcases List.mem_cons.mp hx with rfl | hx2
    · exact foldl_min_le_init x ms
    · exact foldl_min_le_mem m x ms hx2

/-- Helper: when every step succeeds, the loop yields one point and one id
    per iteration and no error. -/
theorem piLoop_all_ok (vname iname sname : Option String) (gen : Nat → String)
    (inp : PIInputs)
    (hok : ∀ i, ∃ pt, (piStep vname iname sname gen inp i).2 = Except.ok pt) :
    ∀ fuel i, (piLoop vname iname sname gen inp fuel i).error = none ∧
      (piLoop vname iname sname gen inp fuel i).points.length = fuel := by
  intro fuel
  induction fuel with
  | zero => intro i; exact ⟨rfl, rfl⟩
  | succ k ih =>
    intro i
    obtain ⟨pt, hpt⟩ := hok i
    have hrest := ih (i + 1)
    simp [piLoop, hpt, hrest.1, hrest.2]

/-- Helper: with documents and text vectors both supplied, no images, no
    sparse vectors and a dense field name available, every loop step
    succeeds. -/
theorem piStep_ok_docs_text (n : String) (iname sname : Option String)
    (gen : Nat → String) (inp : PIInputs) (ld : List String) (lt : List Dense)
    (hdocs : inp.documents = some ld) (htv : inp.text_vectors = some lt)
    (himg : inp.images = none) (hsv : inp.sparse_vectors = none) (i : Nat) :
    ∃ pt, (piStep (some n) iname sname gen inp i).2 = Except.ok pt := by
  simp [piStep, hdocs, htv, himg, hsv, pure, Except.pure, bind, Except.bind]

/-- Claim C5, counterexample: with 3 documents, 3 ids, 3 text vectors but a
    single supplied metadata entry, the builder emits 1 record — the supplied
    `metadata` sequence participates in the zip — not the 3 records promised
    by the minimum over documents, images and ids alone. -/
theorem c5_metadata_shortens_stream :
    (_points_iterator ⟨some "BAAI/bge-small-en", none, none⟩ (fun _ => "gen")
          ⟨some ["1", "2", "3"], some [[]], some ["a", "b", "c"], none,
            some [[1], [2], [3]], none, none⟩).map
        (fun r => (r.points.length, r.error)) =
      some (1, none) ∧ (1 : Nat) ≠ min 3 3 :=
  ⟨rfl, by decide⟩

/-- Helper: a loop run that ends without an error yielded exactly one point
    per iteration. -/
theorem piLoop_error_none_length (vname iname sname : Option String)
    (gen : Nat → String) (inp : PIInputs) :
    ∀ fuel i, (piLoop vname iname sname gen inp fuel i).error = none →
      (piLoop vname iname sname gen inp fuel i).points.length = fuel := by
  intro fuel
  induction fuel with
  | zero => intro i _; rfl
  | succ k ih =>
    intro i herr
    simp only [piLoop] at herr ⊢
    split at herr
    · cases herr
    next pt hs =>
      exact congrArg (· + 1) (ih (i + 1) herr)

/-- Helper: the loop never yields more points than it has iterations,
    whether or not a step aborts it. -/
theorem piLoop_length_le (vname iname sname : Option String)
    (gen : Nat → String) (inp : PIInputs) :
    ∀ fuel i, (piLoop vname iname sname gen inp fuel i).points.length ≤ fuel := by
  intro fuel
  induction fuel with
  | zero => intro i; exact Nat.le_refl 0
  | succ k ih =>
    intro i
    simp only [piLoop]
    split
    · exact Nat.zero_le _
    · exact Nat.succ_le_succ (ih (i + 1))

/-- Claim C5 (amended): for every build call that terminates, (1) whenever
    the stream completes without an error, the number of emitted records
    equals `piLen` — the minimum length over all supplied sequences taking
    part in the zip: ids, metadata, documents, images, plus text/sparse
    vectors when documents are supplied and image vectors when images are
    supplied (absent optional sequences are infinite sentinel streams);
    (2) unconditionally — even when a `TypeError` or an in-loop assert aborts
    the stream early — the record count never exceeds that minimum; and
    (3) in particular it never exceeds the length of any supplied documents,
    images or ids sequence. -/
theorem c5_record_count_is_min_over_all_supplied :
    (∀ (st : FastembedState) (gen : Nat → String) (inp : PIInputs) (r : PIResult),
      _points_iterator st gen inp = some r → r.error = none →
        some r.points.length = piLen inp) ∧
    (∀ (st : FastembedState) (gen : Nat → String) (inp : PIInputs) (r : PIResult)
        (n : Nat),
      _points_iterator st gen inp = some r → piLen inp = some n →
        r.points.length ≤ n) ∧
    (∀ (st : FastembedState) (gen : Nat → String) (inp : PIInputs) (r : PIResult),
      _points_iterator st gen inp = some r →
        (∀ ld, inp.documents = some ld → r.points.length ≤ ld.length) ∧
        (∀ li, inp.images = some li → r.points.length ≤ li.length) ∧
        (∀ lid, inp.ids = some lid → r.points.length ≤ lid.length)) := by
  have hB : ∀ (st : FastembedState) (gen : Nat → String) (inp : PIInputs)
      (r : PIResult) (n : Nat),
      _points_iterator st gen inp = some r → piLen inp = some n →
        r.points.length ≤ n := by
    intro st gen inp r n hres hn
    unfold _points_iterator at hres
    split at hres
    · obtain rfl := Option.some.inj hres
      exact Nat.zero_le n
    · split at hres
      · obtain rfl := Option.some.inj hres
        exact Nat.zero_le n
      · split at hres
        · cases hres
        next m hm =>
          obtain rfl := Option.some.inj hres
          obtain rfl : m = n := Option.some.inj (hm.symm.trans hn)
          exact piLoop_length_le _ _ _ gen inp m 0
  refine ⟨?_, hB, ?_⟩
  · intro st gen inp r hres herr
    unfold _points_iterator at hres
    split at hres
    · obtain rfl := Option.some.inj hres
      cases herr
    · split at hres
      · obtain rfl := Option.some.inj hres
        cases herr
      · split at hres
        · cases hres
        next n hn =>
          obtain rfl := Option.some.inj hres
          rw [hn]
          exact congrArg some (piLoop_error_none_length _ _ _ gen inp n 0 herr)
  · intro st gen inp r hres
    have bound : ∀ x, x ∈ piFiniteLengths inp → r.points.length ≤ x := by
      intro x hx
      obtain ⟨n, hn⟩ := piLen_some_of_ne_nil inp (by
        intro hnil
        rw [hnil] at hx
        cases hx)
      exact le_trans (hB st gen inp r n hres hn) (piLen_le_mem inp n x hn hx)
    refine ⟨?_, ?_, ?_⟩
    · intro ld hld
      exact bound ld.length (by simp [piFiniteLengths, hld])
    · intro li hli
      exact bound li.length (by simp [piFiniteLengths, hli])
    · intro lid hlid
      exact bound lid.length (by simp [piFiniteLengths, hlid])

/-- Witness for C5's amended theorem at the metadata counterexample input:
    the build completes without error with exactly one record, matching the
    zip bound (the supplied metadata sequence of length 1), and the bound
    parts hold at the same input. -/
theorem c5_record_count_witness :
    (some (PIResult.mk
        [PointStruct.mk "1" [("document", "a")]
          [("fast-bge-small-en", VecVal.dense [1])]] ["1"] none).points.length =
      piLen ⟨some ["1", "2", "3"], some [[]], some ["a", "b", "c"], none,
        some [[1], [2], [3]], none, none⟩) ∧
    (PIResult.mk
        [PointStruct.mk "1" [("document", "a")]
          [("fast-bge-small-en", VecVal.dense [1])]] ["1"] none).points.length ≤ 1 ∧
    (∀ ld, (some ["a", "b", "c"] : Option (List String)) = some ld →
      (PIResult.mk
        [PointStruct.mk "1" [("document", "a")]
          [("fast-bge-small-en", VecVal.dense [1])]] ["1"] none).points.length ≤
        ld.length) :=
  ⟨c5_record_count_is_min_over_all_supplied.1
      ⟨some "BAAI/bge-small-en", none, none⟩ (fun _ => "gen")
      ⟨some ["1", "2", "3"], some [[]], some ["a", "b", "c"], none,
        some [[1], [2], [3]], none, none⟩
      (PIResult.mk
        [PointStruct.mk "1" [("document", "a")]
          [("fast-bge-small-en", VecVal.dense [1])]] ["1"] none) rfl rfl,
    c5_record_count_is_min_over_all_supplied.2.1
      ⟨some "BAAI/bge-small-en", none, none⟩ (fun _ => "gen")
      ⟨some ["1", "2", "3"], some [[]], some ["a", "b", "c"], none,
        some [[1], [2], [3]], none, none⟩
      (PIResult.mk
        [PointStruct.mk "1" [("document", "a")]
          [("fast-bge-small-en", VecVal.dense [1])]] ["1"] none) 1 rfl rfl,
    (c5_record_count_is_min_over_all_supplied.2.2
      ⟨some "BAAI/bge-small-en", none, none⟩ (fun _ => "gen")
      ⟨some ["1", "2", "3"], some [[]], some ["a", "b", "c"], none,
        some [[1], [2], [3]], none, none⟩
      (PIResult.mk
        [PointStruct.mk "1" [("document", "a")]
          [("fast-bge-small-en", VecVal.dense [1])]] ["1"] none) rfl).1⟩

/-- Claim C3, counterexample: 3 documents, 3 ids, 2 dense vectors — the
    builder emits 2 records and no error: the zip silently truncates at the
    shorter vector sequence instead of raising an alignment error at the
    position of the missing vector. -/
theorem c3_short_vectors_truncate_silently :
    (_points_iterator ⟨some "BAAI/bge-small-en", none, none⟩ (fun _ => "gen")
          ⟨some ["1", "2", "3"], none, some ["a", "b", "c"], none,
            some [[1], [2]], none, none⟩).map
        (fun r => (r.points.length, r.ids, r.error)) =
      some (2, ["1", "2"], none) := by
  rfl

/-- Claim C3 (amended): when the supplied dense vector sequence is strictly
    shorter than the documents and ids sequences, the builder does not fail:
    it silently emits exactly one record per vector (the stream truncates at
    the shortest sequence) with no error, never reaching the position of the
    missing vector. -/
theorem c3_short_vectors_emit_vector_count
    (st : FastembedState) (gen : Nat → String) (inp : PIInputs)
    (dm : String) (ld li : List String) (lt : List Dense)
    (hdm : st.embedding_model_name = some dm)
    (hdocs : inp.documents = some ld) (hids : inp.ids = some li)
    (htv : inp.text_vectors = some lt)
    (hmeta : inp.metadata = none) (himg : inp.images = none)
    (hsv : inp.sparse_vectors = none)
    (hlt_ld : lt.length ≤ ld.length) (hlt_li : lt.length ≤ li.length) :
    ∃ r, _points_iterator st gen inp = some r ∧ r.error = none ∧
      r.points.length = lt.length := by
  have hv : get_vector_field_name st = some ("fast-" ++ lastSegmentLower dm) := by
    simp [get_vector_field_name, hdm]
  have hfl : piFiniteLengths inp = [li.length, ld.length, lt.length] := by
    simp [piFiniteLengths, hdocs, htv, himg, hsv, hids, hmeta]
  have hn : piLen inp = some lt.length := by
    unfold piLen
    rw [hfl]
    simp only [List.foldl]
    congr 1
    omega
  have hok : ∀ i, ∃ pt,
      (piStep (get_vector_field_name st) (get_image_vector_field_name st)
        (get_sparse_vector_field_name st) gen inp i).2 = Except.ok pt := by
    intro i
    rw [hv]
    exact piStep_ok_docs_text _ _ _ gen inp ld lt hdocs htv himg hsv i
  have hloop := piLoop_all_ok (get_vector_field_name st)
    (get_image_vector_field_name st) (get_sparse_vector_field_name st) gen inp hok
    lt.length 0
  have hres : _points_iterator st gen inp =
      some (piLoop (get_vector_field_name st) (get_image_vector_field_name st)
        (get_sparse_vector_field_name st) gen inp lt.length 0) := by
    unfold _points_iterator
    rw [hdocs, htv, himg, hn]
    rfl
  exact ⟨_, hres, hloop.1, hloop.2⟩

/-- Witness for C3's amended theorem at the 3-documents/3-ids/2-vectors
    input: 2 records, no error. -/
theorem c3_short_vectors_witness :
    ∃ r, _points_iterator ⟨some "BAAI/bge-small-en", none, none⟩ (fun _ => "gen")
          ⟨some ["1", "2", "3"], none, some ["a", "b", "c"], none,
            some [[1], [2]], none, none⟩ = some r ∧
        r.error = none ∧ r.points.length = ([[1], [2]] : List Dense).length :=
  c3_short_vectors_emit_vector_count
    ⟨some "BAAI/bge-small-en", none, none⟩ (fun _ => "gen")
    ⟨some ["1", "2", "3"], none, some ["a", "b", "c"], none,
      some [[1], [2]], none, none⟩
    "BAAI/bge-small-en" ["a", "b", "c"] ["1", "2", "3"] [[1], [2]]
    rfl rfl rfl rfl rfl rfl rfl (by decide) (by decide)

/-- Helper: if the per-field check passes, every binding in the map is
    declared with matching size and distance. -/
theorem checkParams_ok_mem (ci : CollectionInfo)
    (pm : List (String × (Nat × Distance))) (h : checkParams ci pm = Except.ok ()) :
    ∀ f sz d, (f, (sz, d)) ∈ pm →
      ∃ vp, ci.vectors.lookup f = some vp ∧ vp.size = sz ∧ vp.distance = d := by
  induction pm with
  | nil => intro f sz d hm; cases hm
  | cons e rest ih =>
    obtain ⟨f0, sz0, d0⟩ := e
    intro f sz d hm
    rw [checkParams] at h
    split at h
    · cases h
    next vp0 hl =>
      split at h
      · cases h
      next h1 =>
        split at h
        · cases h
        next h2 =>
          push_neg at h1 h2
          rcases List.mem_cons.mp hm with heq | hm2
          · simp only [Prod.mk.injEq] at heq
            obtain ⟨rfl, rfl, rfl⟩ := heq
            exact ⟨vp0, hl, h1.symm, h2.symm⟩
          · exact ih h f sz d hm2

/-- Helper: a successful text-params resolution is a table hit. -/
theorem get_text_params_ok (tt : List (String × (Nat × Distance))) (m : String)
    (p : Nat × Distance) (h : _get_text_model_params tt m = Except.ok p) :
    tt.lookup m = some p := by
  unfold _get_text_model_params at h
  split at h
  next q hq =>
    obtain rfl : q = p := Except.ok.inj h
    exact hq
  next hq => cases h

/-- Helper: a successful image-params resolution is a table hit. -/
theorem get_image_params_ok (it : List (String × (Nat × Distance))) (m : String)
    (p : Nat × Distance) (h : _get_image_model_params it m = Except.ok p) :
    it.lookup m = some p := by
  unfold _get_image_model_params at h
  split at h
  next q hq =>
    obtain rfl : q = p := Except.ok.inj h
    exact hq
  next hq => cases h

/-- Helper: a successful image half keeps the text bindings and resolves the
    active image binding in its table. -/
theorem buildImagePart_ok_spec (st : FastembedState)
    (it : List (String × (Nat × Distance)))
    (pm1 pm : List (String × (Nat × Distance)))
    (h : buildImagePart st it pm1 = Except.ok pm) :
    (∀ x, x ∈ pm1 → x ∈ pm) ∧
    (∀ im, st.image_embedding_model_name = some im →
      ∃ p, it.lookup im = some p ∧ ("fast-image-" ++ lastSegmentLower im, p) ∈ pm) := by
  unfold buildImagePart at h
  split at h
  next im him =>
    split at h
    next p hgp =>
      obtain rfl : _ = pm := Except.ok.inj h
      refine ⟨fun x hx => List.mem_append_left _ hx, fun im2 hc => ?_⟩
      obtain rfl : im = im2 := Option.some.inj (him.symm.trans hc)
      exact ⟨p, get_image_params_ok it im p hgp, List.mem_append_right _ (by simp)⟩
    next e hgp => cases h
  next him =>
    obtain rfl : pm1 = pm := Except.ok.inj h
    refine ⟨fun x hx => hx, fun im hc => ?_⟩
    rw [him] at hc
    cases hc

/-- Helper: a successfully built `params_map` resolves each active
    dense/image binding in its table and contains the binding. -/
theorem buildParamsMap_ok_spec (st : FastembedState)
    (tt it : List (String × (Nat × Distance)))
    (pm : List (String × (Nat × Distance)))
    (h : buildParamsMap st tt it = Except.ok pm) :
    (∀ dm, st.embedding_model_name = some dm →
      ∃ p, tt.lookup dm = some p ∧ ("fast-" ++ lastSegmentLower dm, p) ∈ pm) ∧
    (∀ im, st.image_embedding_model_name = some im →
      ∃ p, it.lookup im = some p ∧ ("fast-image-" ++ lastSegmentLower im, p) ∈ pm) := by
  unfold buildParamsMap at h
  split at h
  next dm hdm =>
    split at h
    next p hgp =>
      have hspec := buildImagePart_ok_spec st it _ pm h
      refine ⟨fun dm2 hc => ?_, hspec.2⟩
      obtain rfl : dm = dm2 := Option.some.inj (hdm.symm.trans hc)
      exact ⟨p, get_text_params_ok tt dm p hgp, hspec.1 _ (by simp)⟩
    next e hgp => cases h
  next hdm =>
    have hspec := buildImagePart_ok_spec st it [] pm h
    refine ⟨fun dm hc => ?_, hspec.2⟩
    rw [hdm] at hc
    cases hc

/-- Helper: a passing validation implies every active binding is declared
    with matching size/distance and the active sparse field is declared. -/
theorem validate_ok_implies (st : FastembedState)
    (tt it : List (String × (Nat × Distance))) (ci : CollectionInfo)
    (h : _validate_collection_info st tt it ci = Except.ok ()) :
    (∀ dm, st.embedding_model_name = some dm →
      ∃ sz d vp, tt.lookup dm = some (sz, d) ∧
        ci.vectors.lookup ("fast-" ++ lastSegmentLower dm) = some vp ∧
        vp.size = sz ∧ vp.distance = d) ∧
    (∀ im, st.image_embedding_model_name = some im →
      ∃ sz d vp, it.lookup im = some (sz, d) ∧
        ci.vectors.lookup ("fast-image-" ++ lastSegmentLower im) = some vp ∧
        vp.size = sz ∧ vp.distance = d) ∧
    (∀ sm, st.sparse_embedding_model_name = some sm →
      ("fast-sparse-" ++ lastSegmentLower sm) ∈ ci.sparse_vectors) := by
  unfold _validate_collection_info at h
  split at h
  · cases h
  next pm hb =>
    split at h
    · split at h
      next u hc =>
        cases u
        have hspec := buildParamsMap_ok_spec st tt it pm hb
        have hcp := checkParams_ok_mem ci pm hc
        refine ⟨?_, ?_, ?_⟩
        · intro dm hdm
          obtain ⟨⟨sz, d⟩, hp, hmem⟩ := hspec.1 dm hdm
          obtain ⟨vp, hl, hs, hd⟩ := hcp _ sz d hmem
          exact ⟨sz, d, vp, hp, hl, hs, hd⟩
        · intro im him
          obtain ⟨⟨sz, d⟩, hp, hmem⟩ := hspec.2 im him
          obtain ⟨vp, hl, hs, hd⟩ := hcp _ sz d hmem
          exact ⟨sz, d, vp, hp, hl, hs, hd⟩
        · intro sm hsm
          unfold checkSparse at h
          have hfn : get_sparse_vector_field_name st =
              some ("fast-sparse-" ++ lastSegmentLower sm) := by
            simp [get_sparse_vector_field_name, hsm]
          rw [hfn] at h
          replace h :
              (if ("fast-sparse-" ++ lastSegmentLower sm) ∈ ci.sparse_vectors then
                  (Except.ok () : Except ValidationError Unit)
                else
                  Except.error
                    (ValidationError.missingSparseField
                      ("fast-sparse-" ++ lastSegmentLower sm))) = Except.ok () := h
          by_cases hmem : ("fast-sparse-" ++ lastSegmentLower sm) ∈ ci.sparse_vectors
          · exact hmem
          · rw [if_neg hmem] at h; cases h
      next e hc => cases h
    · cases h

/-- Claim C7: an ingestion call against a collection that lacks a required
    named vector field, declares a mismatched width or distance for an active
    dense or image binding, or lacks the required sparse field, fails
    deterministically with an error — `add` aborts before the point stream
    that would be upserted is ever built. -/
theorem c7_schema_mismatch_aborts_before_upsert
    (st : FastembedState) (tt it : List (String × (Nat × Distance)))
    (et ei : String → Dense) (se : String → Sparse) (gen : Nat → String)
    (ci : CollectionInfo)
    (documents : Option (List String))
    (metadata : Option (List (List (String × String))))
    (ids : Option (List String)) (images : Option (List String))
    (hbad :
      (∃ dm, st.embedding_model_name = some dm ∧
        ci.vectors.lookup ("fast-" ++ lastSegmentLower dm) = none) ∨
      (∃ dm sz d vp, st.embedding_model_name = some dm ∧
        tt.lookup dm = some (sz, d) ∧
        ci.vectors.lookup ("fast-" ++ lastSegmentLower dm) = some vp ∧
        (vp.size ≠ sz ∨ vp.distance ≠ d)) ∨
      (∃ im, st.image_embedding_model_name = some im ∧
        ci.vectors.lookup ("fast-image-" ++ lastSegmentLower im) = none) ∨
      (∃ im sz d vp, st.image_embedding_model_name = some im ∧
        it.lookup im = some (sz, d) ∧
        ci.vectors.lookup ("fast-image-" ++ lastSegmentLower im) = some vp ∧
        (vp.size ≠ sz ∨ vp.distance ≠ d)) ∨
      (∃ sm, st.sparse_embedding_model_name = some sm ∧
        ("fast-sparse-" ++ lastSegmentLower sm) ∉ ci.sparse_vectors)) :
    ∃ e, add st tt it et ei se gen ci documents metadata ids images =
      Except.error e := by
  have himg : (addState st documents).image_embedding_model_name =
      st.image_embedding_model_name := by
    unfold addState; split <;> rfl
  have hsp : (addState st documents).sparse_embedding_model_name =
      st.sparse_embedding_model_name := by
    unfold addState; split <;> rfl
  cases hval : _validate_collection_info (addState st documents) tt it ci with
  | error e =>
    refine ⟨e, ?_⟩
    simp only [add, hval]
  | ok u =>
    exfalso
    cases u
    have goods := validate_ok_implies (addState st documents) tt it ci hval
    rcases hbad with ⟨dm, hdm, hmiss⟩ | ⟨dm, sz, d, vp, hdm, htt, hvp, hmm⟩ |
      ⟨im, him, hmiss⟩ | ⟨im, sz, d, vp, him, hit, hvp, hmm⟩ | ⟨sm, hsm, hnot⟩
    · have hdm1 : (addState st documents).embedding_model_name = some dm := by
        unfold addState; split
        · rw [defaultedState_of_some st dm hdm]; exact hdm
        · exact hdm
      obtain ⟨sz, d, vp, _, hfound, _, _⟩ := goods.1 dm hdm1
      rw [hmiss] at hfound; cases hfound
    · have hdm1 : (addState st documents).embedding_model_name = some dm := by
        unfold addState; split
        · rw [defaultedState_of_some st dm hdm]; exact hdm
        · exact hdm
      obtain ⟨sz2, d2, vp2, htt2, hfound, hs2, hd2⟩ := goods.1 dm hdm1
      obtain ⟨hsz, hd⟩ : sz2 = sz ∧ d2 = d := by
        have := htt2.symm.trans htt
        simpa using Option.some.inj this
      obtain rfl : vp2 = vp := Option.some.inj (hfound.symm.trans hvp)
      rcases hmm with hbadsz | hbadd
      · exact hbadsz (hs2.trans hsz)
      · exact hbadd (hd2.trans hd)
    · have him1 : (addState st documents).image_embedding_model_name = some im :=
        himg.trans him
      obtain ⟨sz, d, vp, _, hfound, _, _⟩ := goods.2.1 im him1
      rw [hmiss] at hfound; cases hfound
    · have him1 : (addState st documents).image_embedding_model_name = some im :=
        himg.trans him
      obtain ⟨sz2, d2, vp2, hit2, hfound, hs2, hd2⟩ := goods.2.1 im him1
      obtain ⟨hsz, hd⟩ : sz2 = sz ∧ d2 = d := by
        have := hit2.symm.trans hit
        simpa using Option.some.inj this
      obtain rfl : vp2 = vp := Option.some.inj (hfound.symm.trans hvp)
      rcases hmm with hbadsz | hbadd
      · exact hbadsz (hs2.trans hsz)
      · exact hbadd (hd2.trans hd)
    · exact hnot (goods.2.2 sm (hsp.trans hsm))

/-- Witness for C7: dense model set, collection declares no vector fields —
    `add` returns an error (no upsert payload is produced). -/
theorem c7_schema_mismatch_witness :
    ∃ e, add ⟨some "BAAI/bge-small-en", none, none⟩
        [("BAAI/bge-small-en", (384, Distance.cosine))] []
        (fun _ => [1]) (fun _ => [2]) (fun _ => ⟨[], []⟩) (fun _ => "gen")
        ⟨[], []⟩ (some ["a"]) none none none =
      Except.error e :=
  c7_schema_mismatch_aborts_before_upsert
    ⟨some "BAAI/bge-small-en", none, none⟩
    [("BAAI/bge-small-en", (384, Distance.cosine))] []
    (fun _ => [1]) (fun _ => [2]) (fun _ => ⟨[], []⟩) (fun _ => "gen")
    ⟨[], []⟩ (some ["a"]) none none none
    (Or.inl ⟨"BAAI/bge-small-en", rfl, rfl⟩)

end QdrantFastembed
